import Mathlib

/-!
Verification of the `the-small-app` backend (`src/api/main.py` and
`src/api/helpers/chibi_drawing.py`).

The development is a shallow embedding of the FastAPI application: the S3
bucket is an explicit state (`S3State`) holding the two JSON backing files
and the set of image object keys; each endpoint of `main.py` becomes a pure
function from the request data and the current state to an `EndpointOut`
(HTTP-level result, successor state, and the trace of storage writes and
deletes it issued).  The external AI collaborator of `chibi_drawing.py` is
modelled by an oracle (`AIBehavior`) giving the outcome of the analysis call
and of each image-generation call of the current request.  Image bytes are
carried opaquely (the base64 text stands for the decoded bytes); base64
decoding and the S3 image upload are modelled as total, since no claim
below depends on their failure modes.
-/

namespace TheSmallApp

/-! ## Python-style string helpers

`str.split`, `str.lstrip` and `urllib.parse.urlparse(...).path` as used by
`main.py`, modelled over the character list of the string. -/

/-- First split of a string at a separator character: `none` when the
separator does not occur (where Python tuple-unpacking of `split(sep, 1)`
would raise `ValueError`). -/
def splitFirstChar (sep : Char) : List Char → Option (List Char × List Char)
  | [] => none
  | c :: cs =>
    if c = sep then some ([], cs)
    else (splitFirstChar sep cs).map (fun p => (c :: p.1, p.2))

/-- Helper for `splitAllChar`, carrying the reversed current chunk. -/
def splitAllCharAux (sep : Char) : List Char → List Char → List (List Char)
  | [], acc => [acc.reverse]
  | c :: cs, acc =>
    if c = sep then acc.reverse :: splitAllCharAux sep cs []
    else splitAllCharAux sep cs (c :: acc)

/-- Python `str.split(sep)` for a one-character separator: never empty. -/
def splitAllChar (sep : Char) (l : List Char) : List (List Char) :=
  splitAllCharAux sep l []

/-- Python `s.split(sep, 1)` unpacked into exactly two parts; `none` when
the separator is absent. -/
def pySplitOnce (sep : Char) (s : String) : Option (String × String) :=
  (splitFirstChar sep s.toList).map (fun p => (String.mk p.1, String.mk p.2))

/-- Python `s.split(sep)` for a one-character separator. -/
def pySplit (sep : Char) (s : String) : List String :=
  (splitAllChar sep s.toList).map String.mk

/-- Python `urllib.parse.urlparse(url).path`, for the URL shapes this
application produces: `scheme://netloc/path` yields `/path`, a string
without a scheme is all path.  Queries and fragments are not modelled
since the stored URLs never carry them. -/
def urlparse_path (url : String) : String :=
  match splitFirstChar ':' url.toList with
  | none => url
  | some (scheme, rest) =>
    if scheme ≠ [] ∧ scheme.all (fun c => c.isAlphanum ∨ c = '+' ∨ c = '-' ∨ c = '.') then
      if rest.take 2 = ['/', '/'] then
        String.mk ((rest.drop 2).dropWhile (fun c => c ≠ '/'))
      else
        String.mk rest
    else url

/-- `get_s3_key_from_url` of `main.py`: `urlparse(url).path.lstrip('/')`. -/
def get_s3_key_from_url (url : String) : String :=
  String.mk ((urlparse_path url).toList.dropWhile (fun c => c = '/'))

/-! ## Data model (the pydantic models of `main.py`) -/

/-- `Ratings` model: three integer scores, default 50 each. -/
structure Ratings where
  texture : Int := 50
  juiciness : Int := 50
  sweetness : Int := 50
deriving DecidableEq, Repr

/-- `Watermelon` model.  `id` and `createdAt` are server-assigned; the
endpoint functions below receive them as explicit arguments in place of
`uuid.uuid4()` and `datetime.now()`. -/
structure Watermelon where
  id : String
  src : String
  createdAt : Nat
  rachy : Ratings := {}
  davey : Ratings := {}
deriving DecidableEq, Repr

/-- `WatermelonUpdate` request body. -/
structure WatermelonUpdate where
  rachy : Ratings
  davey : Ratings
  createdAt : Nat
deriving DecidableEq, Repr

/-- `Sticker` model.  The float placement fields carry no arithmetic in the
source, so they are embedded as integers. -/
structure Sticker where
  id : String
  src : String
  x : Int := 0
  y : Int := 0
  rotation : Int := 0
  scale : Int := 1
  on_back : Bool := false
deriving DecidableEq, Repr

/-- `Polaroid` model. -/
structure Polaroid where
  id : String
  src : String
  createdAt : Nat
  description : String := ""
  diary_entry : String := ""
  stickers : List Sticker := []
deriving DecidableEq, Repr

/-- `PolaroidUpdate` request body. -/
structure PolaroidUpdate where
  createdAt : Nat
  description : String
  diary_entry : String
  stickers : List Sticker
deriving DecidableEq, Repr

/-- `ImageCreate` request body for both create endpoints. -/
structure ImageCreate where
  image_base64 : String
  skip_ai : Bool := false
deriving DecidableEq, Repr

/-! ## S3 storage model -/

/-- Observable condition of a JSON backing file in the bucket, covering the
branches of `read_watermelons_data` / `read_polaroids_data`: the key may be
absent (`NoSuchKey`), hold empty content, hold non-JSON content, fail with
another `ClientError`, or hold a well-formed record list. -/
inductive RawFile (α : Type) where
  | missing
  | emptyContent
  | malformed
  | errorOther
  | good (items : α)
deriving DecidableEq, Repr

/-- State of the S3 bucket together with the module-level configuration:
`configured` is the presence of `s3_client` (all four AWS environment
variables set at import time), `bucket`/`region` are `AWS_S3_BUCKET_NAME`
and `AWS_REGION`, the two files back the record stores, and `objects` is
the set of image object keys present. -/
structure S3State where
  configured : Bool
  bucket : String
  region : String
  watermelonsFile : RawFile (List Watermelon)
  polaroidsFile : RawFile (List Polaroid)
  objects : List String
deriving DecidableEq, Repr

/-- Storage operations an endpoint issues against the bucket. -/
inductive StorageOp where
  | putObject (key : String)
  | deleteObject (key : String)
  | putData (key : String)
deriving DecidableEq, Repr

def WATERMELONS_DATA_FILE : String := "data/watermelons.json"
def POLAROIDS_DATA_FILE : String := "data/polaroids.json"

/-- `get_s3_url` of `main.py`. -/
def get_s3_url (s : S3State) (file_name : String) : String :=
  if s.bucket = "" ∨ s.region = "" ∨ s.configured = false then ""
  else "https://" ++ s.bucket ++ ".s3." ++ s.region ++ ".amazonaws.com/" ++ file_name

/-- `read_watermelons_data`: unconfigured storage, a missing key, empty
content and malformed JSON all yield the empty list; any other
`ClientError` re-raises (an `error` here). -/
def read_watermelons_data (s : S3State) : Except String (List Watermelon) :=
  if s.configured = false ∨ s.bucket = "" then Except.ok []
  else
    match s.watermelonsFile with
    | RawFile.missing => Except.ok []
    | RawFile.emptyContent => Except.ok []
    | RawFile.malformed => Except.ok []
    | RawFile.errorOther => Except.error "ClientError"
    | RawFile.good l => Except.ok l

/-- `write_watermelons_data`: a silent no-op when storage is unconfigured,
otherwise replaces the backing file (the `put_object` call is modelled as
succeeding).  Returns the new state and the issued storage operations. -/
def write_watermelons_data (s : S3State) (l : List Watermelon) :
    S3State × List StorageOp :=
  if s.configured = false ∨ s.bucket = "" then (s, [])
  else ({ s with watermelonsFile := RawFile.good l }, [StorageOp.putData WATERMELONS_DATA_FILE])

/-- `read_polaroids_data`, mirroring `read_watermelons_data`. -/
def read_polaroids_data (s : S3State) : Except String (List Polaroid) :=
  if s.configured = false ∨ s.bucket = "" then Except.ok []
  else
    match s.polaroidsFile with
    | RawFile.missing => Except.ok []
    | RawFile.emptyContent => Except.ok []
    | RawFile.malformed => Except.ok []
    | RawFile.errorOther => Except.error "ClientError"
    | RawFile.good l => Except.ok l

/-- `write_polaroids_data`, mirroring `write_watermelons_data`. -/
def write_polaroids_data (s : S3State) (l : List Polaroid) :
    S3State × List StorageOp :=
  if s.configured = false ∨ s.bucket = "" then (s, [])
  else ({ s with polaroidsFile := RawFile.good l }, [StorageOp.putData POLAROIDS_DATA_FILE])

/-- `s3_client.delete_object` under a per-key failure oracle: a failing
delete raises `ClientError` (which every caller catches and ignores) and
leaves the object in place; a successful delete removes the key. -/
def s3_delete_object (s : S3State) (failDelete : String → Bool) (key : String) : S3State :=
  if failDelete key then s
  else { s with objects := s.objects.filter (fun k => k ≠ key) }

/-! ## AI collaborator model (`helpers/chibi_drawing.py`) -/

/-- `ChibiGenerationTask` model of `chibi_drawing.py`. -/
structure ChibiGenerationTask where
  character_description : String
  chibi_action : String
  generation_prompt : String
deriving DecidableEq, Repr

/-- `PolaroidAnalysisResult` model of `chibi_drawing.py`. -/
structure PolaroidAnalysisResult where
  short_title : String
  chibi_tasks : List ChibiGenerationTask
deriving DecidableEq, Repr

/-- Outcome of the `analyse_polaroid_image` call of the current request:
the agent call may raise, return no output (`None`), or return a result. -/
inductive AnalysisOutcome where
  | raises
  | noResult
  | ok (result : PolaroidAnalysisResult)
deriving DecidableEq, Repr

/-- Oracle for the external AI collaborator during one request.
`analysis` is the outcome of `analyse_polaroid_image`; `gen prompt n` is
the outcome of `generate(prompt, n)` in `chibi_drawing.py`: `none` when
that call raises before its internal try block (the `Client` constructor),
`some urls` for the list of uploaded sticker URLs it returns (empty on any
caught generation error). -/
structure AIBehavior where
  analysis : AnalysisOutcome
  gen : String → Nat → Option (List String)

/-- Accumulation loop of `generate_stickers_from_analysis` in `main.py`:
calls `generate` for each task with 1-based task numbers, extending the
collected path list; a raising `generate` call aborts the whole loop
(`none`). -/
def collect_sticker_paths (gen : String → Nat → Option (List String)) :
    List ChibiGenerationTask → Nat → Option (List String)
  | [], _ => some []
  | t :: ts, n =>
    match gen t.generation_prompt n with
    | none => none
    | some ps =>
      match collect_sticker_paths gen ts (n + 1) with
      | none => none
      | some rest => some (ps ++ rest)

/-- Construction of `Sticker(src=path)` for every generated path, with the
fresh sticker ids supplied positionally in place of `uuid.uuid4()`. -/
def stickers_from_paths (stickerIds : Nat → String) (paths : List String) : List Sticker :=
  paths.enum.map (fun p => { id := stickerIds p.1, src := p.2 })

/-- `generate_stickers_from_analysis` of `main.py`: `none` when a
`generate` call raises, otherwise the stickers built from every collected
path (the empty list when no sticker was generated). -/
def generate_stickers_from_analysis (gen : String → Nat → Option (List String))
    (tasks : List ChibiGenerationTask) (stickerIds : Nat → String) : Option (List Sticker) :=
  (collect_sticker_paths gen tasks 1).map (stickers_from_paths stickerIds)

/-- AI-enrichment section of `create_polaroid` (`main.py` lines 353-371):
computes `initial_description` and `stickers`.  All analysis failures are
caught and leave both empty; a sticker-generation failure after a
successful analysis is caught too, but `initial_description` was already
assigned the analysis title before `generate_stickers_from_analysis` runs,
so only the sticker list stays empty. -/
def polaroid_ai_enrichment (payload : ImageCreate) (ai : AIBehavior)
    (stickerIds : Nat → String) : String × List Sticker :=
  if payload.skip_ai then ("", [])
  else
    match ai.analysis with
    | AnalysisOutcome.raises => ("", [])
    | AnalysisOutcome.noResult => ("", [])
    | AnalysisOutcome.ok r =>
      if r.chibi_tasks.isEmpty then (r.short_title, [])
      else
        match generate_stickers_from_analysis ai.gen r.chibi_tasks stickerIds with
        | none => (r.short_title, [])
        | some sts => (r.short_title, sts)

/-! ## HTTP surface -/

/-- HTTP-level outcome of an endpoint: a success status with the response
model, or an `HTTPException`-style status and detail (a raised server-side
exception is rendered as a 500). -/
inductive ApiResult (α : Type) where
  | ok (status : Nat) (value : α)
  | err (status : Nat) (detail : String)
deriving DecidableEq, Repr

/-- Full observable outcome of one endpoint invocation. -/
structure EndpointOut (α : Type) where
  result : ApiResult α
  state : S3State
  trace : List StorageOp
deriving DecidableEq, Repr

/-- First-match scan `for i, item in enumerate(data): if item.get("id") == tid`. -/
def findById {α : Type} (getId : α → String) (tid : String) : List α → Option (Nat × α)
  | [] => none
  | x :: xs =>
    if getId x = tid then some (0, x)
    else (findById getId tid xs).map (fun p => (p.1 + 1, p.2))

/-- Allow-list of image extensions for `create_watermelon`. -/
def WATERMELON_EXTS : List String := ["jpeg", "jpg", "png", "gif"]

/-- Allow-list of image extensions for `create_polaroid`. -/
def POLAROID_EXTS : List String := ["jpeg", "jpg", "png", "gif", "webp"]

/-- Parsed form of a base64 data URL. -/
structure ParsedImage where
  media_type : String
  file_ext : String
  encoded : String
deriving DecidableEq, Repr

/-- Data-URL parsing shared by both create endpoints
(`header, encoded = s.split(",", 1)`;
`media_type = header.split(":")[1].split(";")[0]`;
`file_ext = media_type.split("/")[1]`): `none` wherever the Python code
would raise `ValueError`/`IndexError`, which the endpoint turns into a 400. -/
def parse_data_url (s : String) : Option ParsedImage :=
  match pySplitOnce ',' s with
  | none => none
  | some (header, encoded) =>
    match (pySplit ':' header).get? 1 with
    | none => none
    | some afterColon =>
      let media_type := (pySplit ';' afterColon).headD ""
      match (pySplit '/' media_type).get? 1 with
      | none => none
      | some ext => some { media_type := media_type, file_ext := ext, encoded := encoded }

/-- `GET /watermelons`. -/
def get_watermelons (s : S3State) : EndpointOut (List Watermelon) :=
  match read_watermelons_data s with
  | Except.error _ => ⟨ApiResult.err 500 "Internal Server Error", s, []⟩
  | Except.ok data => ⟨ApiResult.ok 200 data, s, []⟩

/-- `POST /watermelons`.  `imageUuid` stands for the `uuid.uuid4()` of the
image name, `recordId`/`now` for the server-assigned record id and
timestamp.  The image upload is modelled as succeeding. -/
def create_watermelon (s : S3State) (payload : ImageCreate)
    (imageUuid recordId : String) (now : Nat) : EndpointOut Watermelon :=
  if s.configured = false ∨ s.bucket = "" then
    ⟨ApiResult.err 500 "S3 storage is not configured on the server.", s, []⟩
  else
    match parse_data_url payload.image_base64 with
    | none => ⟨ApiResult.err 400 "Failed to process and upload image", s, []⟩
    | some pi =>
      if pi.file_ext ∉ WATERMELON_EXTS then
        ⟨ApiResult.err 400 "Invalid image format. Supported formats: jpeg, jpg, png, gif.", s, []⟩
      else
        let image_name := "images/watermelons/" ++ imageUuid ++ "." ++ pi.file_ext
        let s1 : S3State := { s with objects := s.objects ++ [image_name] }
        let w : Watermelon := { id := recordId, src := get_s3_url s1 image_name, createdAt := now }
        match read_watermelons_data s1 with
        | Except.error _ => ⟨ApiResult.err 500 "Internal Server Error", s1, [StorageOp.putObject image_name]⟩
        | Except.ok data =>
          let wr := write_watermelons_data s1 (data ++ [w])
          ⟨ApiResult.ok 201 w, wr.1, StorageOp.putObject image_name :: wr.2⟩

/-- `PUT /watermelons/{watermelon_id}`. -/
def update_watermelon (s : S3State) (watermelon_id : String)
    (payload : WatermelonUpdate) : EndpointOut Watermelon :=
  match read_watermelons_data s with
  | Except.error _ => ⟨ApiResult.err 500 "Internal Server Error", s, []⟩
  | Except.ok data =>
    match findById Watermelon.id watermelon_id data with
    | none => ⟨ApiResult.err 404 "Watermelon not found", s, []⟩
    | some iw =>
      let w := { iw.2 with rachy := payload.rachy, davey := payload.davey,
                           createdAt := payload.createdAt }
      let wr := write_watermelons_data s (data.set iw.1 w)
      ⟨ApiResult.ok 200 w, wr.1, wr.2⟩

/-- `DELETE /watermelons/{watermelon_id}`.  The image delete runs only when
the stored `src` is non-empty and the client is configured; its failure is
caught and ignored. -/
def delete_watermelon (s : S3State) (failDelete : String → Bool)
    (watermelon_id : String) : EndpointOut Unit :=
  match read_watermelons_data s with
  | Except.error _ => ⟨ApiResult.err 500 "Internal Server Error", s, []⟩
  | Except.ok data =>
    match findById Watermelon.id watermelon_id data with
    | none => ⟨ApiResult.err 404 "Watermelon not found", s, []⟩
    | some iw =>
      let del : S3State × List StorageOp :=
        if iw.2.src ≠ "" ∧ s.configured = true then
          let key := get_s3_key_from_url iw.2.src
          (s3_delete_object s failDelete key, [StorageOp.deleteObject key])
        else (s, [])
      let wr := write_watermelons_data del.1 (data.eraseIdx iw.1)
      ⟨ApiResult.ok 204 (), wr.1, del.2 ++ wr.2⟩

/-- `GET /polaroids`. -/
def get_polaroids (s : S3State) : EndpointOut (List Polaroid) :=
  match read_polaroids_data s with
  | Except.error _ => ⟨ApiResult.err 500 "Internal Server Error", s, []⟩
  | Except.ok data => ⟨ApiResult.ok 200 data, s, []⟩

/-- `POST /polaroids`: upload the image, run the optional AI enrichment
(`polaroid_ai_enrichment`), append the new record.  The sticker ids of the
enrichment are supplied by `stickerIds`. -/
def create_polaroid (s : S3State) (payload : ImageCreate) (ai : AIBehavior)
    (stickerIds : Nat → String) (imageUuid recordId : String) (now : Nat) :
    EndpointOut Polaroid :=
  if s.configured = false ∨ s.bucket = "" then
    ⟨ApiResult.err 500 "S3 storage is not configured on the server.", s, []⟩
  else
    match parse_data_url payload.image_base64 with
    | none => ⟨ApiResult.err 400 "Failed to process and upload image", s, []⟩
    | some pi =>
      if pi.file_ext ∉ POLAROID_EXTS then
        ⟨ApiResult.err 400 "Invalid image format. Supported formats: jpeg, jpg, png, gif, webp.", s, []⟩
      else
        let image_name := "images/polaroids/" ++ imageUuid ++ "." ++ pi.file_ext
        let s1 : S3State := { s with objects := s.objects ++ [image_name] }
        let enr := polaroid_ai_enrichment payload ai stickerIds
        let p : Polaroid := { id := recordId, src := get_s3_url s1 image_name,
                              createdAt := now, description := enr.1, stickers := enr.2 }
        match read_polaroids_data s1 with
        | Except.error _ => ⟨ApiResult.err 500 "Internal Server Error", s1, [StorageOp.putObject image_name]⟩
        | Except.ok data =>
          let wr := write_polaroids_data s1 (data ++ [p])
          ⟨ApiResult.ok 201 p, wr.1, StorageOp.putObject image_name :: wr.2⟩

/-- Old-sticker deletion loop shared by `regenerate_stickers_for_polaroid`
and `delete_polaroid`: a delete is issued for every sticker whose `src` is
non-empty; failures are caught and ignored. -/
def delete_sticker_images (failDelete : String → Bool) :
    S3State → List Sticker → S3State × List StorageOp
  | s, [] => (s, [])
  | s, st :: rest =>
    if st.src = "" then delete_sticker_images failDelete s rest
    else
      let key := get_s3_key_from_url st.src
      let out := delete_sticker_images failDelete (s3_delete_object s failDelete key) rest
      (out.1, StorageOp.deleteObject key :: out.2)

/-- `POST /polaroids/{polaroid_id}/stickers`.  A failed image download, a
raising analysis call and an absent analysis result each surface as a 500
`HTTPException`; a raising `generate` call propagates out of the handler
(also a 500), after the old sticker images were already deleted but before
the record list is rewritten. -/
def regenerate_stickers_for_polaroid (s : S3State) (ai : AIBehavior)
    (failDelete : String → Bool) (stickerIds : Nat → String)
    (polaroid_id : String) : EndpointOut Polaroid :=
  if s.configured = false ∨ s.bucket = "" then
    ⟨ApiResult.err 500 "S3 storage is not configured on the server.", s, []⟩
  else
    match read_polaroids_data s with
    | Except.error _ => ⟨ApiResult.err 500 "Internal Server Error", s, []⟩
    | Except.ok data =>
      match findById Polaroid.id polaroid_id data with
      | none => ⟨ApiResult.err 404 "Polaroid not found", s, []⟩
      | some ip =>
        if ip.2.src = "" then
          ⟨ApiResult.err 404 "Polaroid does not have a source image.", s, []⟩
        else
          let image_key := get_s3_key_from_url ip.2.src
          if image_key ∉ s.objects then
            ⟨ApiResult.err 500 "Failed to retrieve polaroid image for analysis.", s, []⟩
          else
            match ai.analysis with
            | AnalysisOutcome.raises =>
              ⟨ApiResult.err 500 "An error occurred during polaroid analysis", s, []⟩
            | AnalysisOutcome.noResult =>
              ⟨ApiResult.err 500 "An error occurred during polaroid analysis", s, []⟩
            | AnalysisOutcome.ok r =>
              let del := delete_sticker_images failDelete s ip.2.stickers
              let genRes :=
                if r.chibi_tasks.isEmpty then some []
                else generate_stickers_from_analysis ai.gen r.chibi_tasks stickerIds
              match genRes with
              | none => ⟨ApiResult.err 500 "Internal Server Error", del.1, del.2⟩
              | some new_stickers =>
                let p := { ip.2 with description := r.short_title, stickers := new_stickers }
                let wr := write_polaroids_data del.1 (data.set ip.1 p)
                ⟨ApiResult.ok 200 p, wr.1, del.2 ++ wr.2⟩

/-- `PUT /polaroids/{polaroid_id}`: full replace of the mutable fields,
rebuilding the record with the original `src`. -/
def update_polaroid (s : S3State) (polaroid_id : String)
    (payload : PolaroidUpdate) : EndpointOut Polaroid :=
  match read_polaroids_data s with
  | Except.error _ => ⟨ApiResult.err 500 "Internal Server Error", s, []⟩
  | Except.ok data =>
    match findById Polaroid.id polaroid_id data with
    | none => ⟨ApiResult.err 404 "Polaroid not found", s, []⟩
    | some ip =>
      let p : Polaroid := { id := polaroid_id, src := ip.2.src,
                            createdAt := payload.createdAt,
                            description := payload.description,
                            diary_entry := payload.diary_entry,
                            stickers := payload.stickers }
      let wr := write_polaroids_data s (data.set ip.1 p)
      ⟨ApiResult.ok 200 p, wr.1, wr.2⟩

/-- `DELETE /polaroids/{polaroid_id}`: when storage is configured, delete
the main image (if its `src` is non-empty) and every sticker image, each
failure caught and ignored; then remove the record and rewrite the list. -/
def delete_polaroid (s : S3State) (failDelete : String → Bool)
    (polaroid_id : String) : EndpointOut Unit :=
  match read_polaroids_data s with
  | Except.error _ => ⟨ApiResult.err 500 "Internal Server Error", s, []⟩
  | Except.ok data =>
    match findById Polaroid.id polaroid_id data with
    | none => ⟨ApiResult.err 404 "Polaroid not found", s, []⟩
    | some ip =>
      let del : S3State × List StorageOp :=
        if s.configured = false ∨ s.bucket = "" then (s, [])
        else
          let delMain : S3State × List StorageOp :=
            if ip.2.src ≠ "" then
              let key := get_s3_key_from_url ip.2.src
              (s3_delete_object s failDelete key, [StorageOp.deleteObject key])
            else (s, [])
          let delSt := delete_sticker_images failDelete delMain.1 ip.2.stickers
          (delSt.1, delMain.2 ++ delSt.2)
      let wr := write_polaroids_data del.1 (data.eraseIdx ip.1)
      ⟨ApiResult.ok 204 (), wr.1, del.2 ++ wr.2⟩

/-! ## Helper lemmas -/

theorem findById_eq_none {α : Type} (getId : α → String) (tid : String) (l : List α)
    (h : ∀ q ∈ l, getId q ≠ tid) : findById getId tid l = none := by
  induction l with
  | nil => rfl
  | cons q rest ih =>
    have hq : getId q ≠ tid := h q (by simp)
    simp [findById, hq, ih (fun r hr => h r (by simp [hr]))]

theorem findById_first {α : Type} (getId : α → String) (x : α) (pre post : List α)
    (h : ∀ q ∈ pre, getId q ≠ getId x) :
    findById getId (getId x) (pre ++ x :: post) = some (pre.length, x) := by
  induction pre with
  | nil => simp [findById]
  | cons q pre ih =>
    have hq : getId q ≠ getId x := h q (by simp)
    simp [findById, hq, ih (fun r hr => h r (by simp [hr]))]

theorem set_at_append {α : Type} (pre post : List α) (x y : α) :
    (pre ++ x :: post).set pre.length y = pre ++ y :: post := by
  induction pre with
  | nil => rfl
  | cons q pre ih => simp [List.set, ih]

theorem eraseIdx_at_append {α : Type} (pre post : List α) (x : α) :
    (pre ++ x :: post).eraseIdx pre.length = pre ++ post := by
  induction pre with
  | nil => rfl
  | cons q pre ih => simp [List.eraseIdx, ih]

theorem read_watermelons_data_objects (s : S3State) (o : List String) :
    read_watermelons_data { s with objects := o } = read_watermelons_data s := rfl

theorem read_polaroids_data_objects (s : S3State) (o : List String) :
    read_polaroids_data { s with objects := o } = read_polaroids_data s := rfl

theorem get_s3_url_objects (s : S3State) (o : List String) (f : String) :
    get_s3_url { s with objects := o } f = get_s3_url s f := rfl

theorem s3_delete_object_configured (s : S3State) (fd : String → Bool) (k : String) :
    (s3_delete_object s fd k).configured = s.configured := by
  unfold s3_delete_object; split <;> rfl

theorem s3_delete_object_bucket (s : S3State) (fd : String → Bool) (k : String) :
    (s3_delete_object s fd k).bucket = s.bucket := by
  unfold s3_delete_object; split <;> rfl

theorem s3_delete_object_watermelonsFile (s : S3State) (fd : String → Bool) (k : String) :
    (s3_delete_object s fd k).watermelonsFile = s.watermelonsFile := by
  unfold s3_delete_object; split <;> rfl

theorem s3_delete_object_polaroidsFile (s : S3State) (fd : String → Bool) (k : String) :
    (s3_delete_object s fd k).polaroidsFile = s.polaroidsFile := by
  unfold s3_delete_object; split <;> rfl

theorem delete_sticker_images_configured (fd : String → Bool) (sts : List Sticker) :
    ∀ s : S3State, (delete_sticker_images fd s sts).1.configured = s.configured := by
  induction sts with
  | nil => intro s; rfl
  | cons st rest ih =>
    intro s
    unfold delete_sticker_images
    by_cases hsrc : st.src = ""
    · simp only [if_pos hsrc]; exact ih s
    · simp only [if_neg hsrc]
      exact (ih _).trans (s3_delete_object_configured _ _ _)

theorem delete_sticker_images_bucket (fd : String → Bool) (sts : List Sticker) :
    ∀ s : S3State, (delete_sticker_images fd s sts).1.bucket = s.bucket := by
  induction sts with
  | nil => intro s; rfl
  | cons st rest ih =>
    intro s
    unfold delete_sticker_images
    by_cases hsrc : st.src = ""
    · simp only [if_pos hsrc]; exact ih s
    · simp only [if_neg hsrc]
      exact (ih _).trans (s3_delete_object_bucket _ _ _)

theorem delete_sticker_images_polaroidsFile (fd : String → Bool) (sts : List Sticker) :
    ∀ s : S3State, (delete_sticker_images fd s sts).1.polaroidsFile = s.polaroidsFile := by
  induction sts with
  | nil => intro s; rfl
  | cons st rest ih =>
    intro s
    unfold delete_sticker_images
    by_cases hsrc : st.src = ""
    · simp only [if_pos hsrc]; exact ih s
    · simp only [if_neg hsrc]
      exact (ih _).trans (s3_delete_object_polaroidsFile _ _ _)

theorem delete_sticker_images_watermelonsFile (fd : String → Bool) (sts : List Sticker) :
    ∀ s : S3State, (delete_sticker_images fd s sts).1.watermelonsFile = s.watermelonsFile := by
  induction sts with
  | nil => intro s; rfl
  | cons st rest ih =>
    intro s
    unfold delete_sticker_images
    by_cases hsrc : st.src = ""
    · simp only [if_pos hsrc]; exact ih s
    · simp only [if_neg hsrc]
      exact (ih _).trans (s3_delete_object_watermelonsFile _ _ _)

theorem delete_sticker_images_trace (fd : String → Bool) (sts : List Sticker)
    (h : ∀ st ∈ sts, st.src ≠ "") :
    ∀ s : S3State, (delete_sticker_images fd s sts).2
      = sts.map (fun st => StorageOp.deleteObject (get_s3_key_from_url st.src)) := by
  induction sts with
  | nil => intro s; rfl
  | cons st rest ih =>
    intro s
    have hsrc : st.src ≠ "" := h st (by simp)
    unfold delete_sticker_images
    simp only [if_neg hsrc, List.map]
    exact congrArg _ (ih (fun r hr => h r (by simp [hr])) _)

theorem read_watermelons_data_ok_nonempty (s : S3State) (l : List Watermelon)
    (h : read_watermelons_data s = Except.ok l) (hne : l ≠ []) :
    s.configured = true ∧ s.bucket ≠ "" ∧ s.watermelonsFile = RawFile.good l := by
  unfold read_watermelons_data at h
  by_cases hcfg : s.configured = false ∨ s.bucket = ""
  · rw [if_pos hcfg] at h
    injection h with h1
    exact absurd h1.symm hne
  · rw [if_neg hcfg] at h
    have h1 : s.configured = true := by
      rcases Bool.eq_false_or_eq_true s.configured with hb | hb
      · exact hb
      · exact absurd (Or.inl hb) hcfg
    have h2 : s.bucket ≠ "" := fun hb => hcfg (Or.inr hb)
    refine ⟨h1, h2, ?_⟩
    cases hf : s.watermelonsFile <;> rw [hf] at h <;> simp_all

theorem get_polaroids_good (t : S3State) (l : List Polaroid)
    (hc : t.configured = true) (hb : t.bucket ≠ "") (hf : t.polaroidsFile = RawFile.good l) :
    get_polaroids t = ⟨ApiResult.ok 200 l, t, []⟩ := by
  simp [get_polaroids, read_polaroids_data, hc, hb, hf]

theorem read_polaroids_data_ok_nonempty (s : S3State) (l : List Polaroid)
    (h : read_polaroids_data s = Except.ok l) (hne : l ≠ []) :
    s.configured = true ∧ s.bucket ≠ "" ∧ s.polaroidsFile = RawFile.good l := by
  unfold read_polaroids_data at h
  by_cases hcfg : s.configured = false ∨ s.bucket = ""
  · rw [if_pos hcfg] at h
    injection h with h1
    exact absurd h1.symm hne
  · rw [if_neg hcfg] at h
    have h1 : s.configured = true := by
      rcases Bool.eq_false_or_eq_true s.configured with hb | hb
      · exact hb
      · exact absurd (Or.inl hb) hcfg
    have h2 : s.bucket ≠ "" := fun hb => hcfg (Or.inr hb)
    refine ⟨h1, h2, ?_⟩
    cases hf : s.polaroidsFile <;> rw [hf] at h <;> simp_all

/-! ## Concrete example data for the witnesses -/

/-- Fully configured bucket with empty record stores. -/
def exState : S3State :=
  { configured := true, bucket := "b", region := "r",
    watermelonsFile := RawFile.good [], polaroidsFile := RawFile.good [],
    objects := [] }

/-- Valid PNG data-URL payload with `skip_ai` left at its default `false`. -/
def exPayload : ImageCreate := { image_base64 := "data:image/png;base64,AAA" }

/-- Payload carrying a data URL with the disallowed `bmp` extension. -/
def exBmpPayload : ImageCreate := { image_base64 := "data:image/bmp;base64,AAA" }

/-- One analysis task, as `chibi_designer_agent` would plan it. -/
def exTask : ChibiGenerationTask :=
  { character_description := "person in blue", chibi_action := "waving",
    generation_prompt := "chibi prompt" }

/-- Analysis result with the title Trip and one generation task. -/
def exAnalysis : PolaroidAnalysisResult :=
  { short_title := "Trip", chibi_tasks := [exTask] }

/-- AI oracle whose analysis succeeds but whose every image-generation call
raises: total sticker-generation failure. -/
def exAIGenFails : AIBehavior :=
  { analysis := AnalysisOutcome.ok exAnalysis, gen := fun _ _ => none }

/-- AI oracle whose analysis call raises: total collaborator failure. -/
def exAIRaises : AIBehavior :=
  { analysis := AnalysisOutcome.raises, gen := fun _ _ => none }

/-- Stored polaroid record with no stickers. -/
def exPolaroid : Polaroid :=
  { id := "p1", src := "https://b.s3.r.amazonaws.com/images/polaroids/u.png",
    createdAt := 0 }

/-- Configured bucket holding `exPolaroid` and its image object. -/
def exStateP : S3State :=
  { configured := true, bucket := "b", region := "r",
    watermelonsFile := RawFile.good [], polaroidsFile := RawFile.good [exPolaroid],
    objects := ["images/polaroids/u.png"] }

/-- Unconfigured storage: the module-level `s3_client` is `None`. -/
def exUnconfigured : S3State :=
  { configured := false, bucket := "", region := "",
    watermelonsFile := RawFile.missing, polaroidsFile := RawFile.missing,
    objects := [] }

/-- Configured bucket whose watermelon file is absent (`NoSuchKey`) and
whose polaroid file holds non-JSON content. -/
def exBrokenFiles : S3State :=
  { configured := true, bucket := "b", region := "r",
    watermelonsFile := RawFile.missing, polaroidsFile := RawFile.malformed,
    objects := [] }

/-! ## Claims -/

/-- C5 (confirmed): for every read of the record store, a missing backing
key (`NoSuchKey`) and a malformed non-JSON backing file are both read as
the empty collection rather than an error, for the watermelon and the
polaroid store alike. -/
theorem C5_missing_or_malformed_reads_empty (s : S3State) :
    (s.watermelonsFile = RawFile.missing ∨ s.watermelonsFile = RawFile.malformed →
      read_watermelons_data s = Except.ok []) ∧
    (s.polaroidsFile = RawFile.missing ∨ s.polaroidsFile = RawFile.malformed →
      read_polaroids_data s = Except.ok []) := by
  constructor
  · intro h
    unfold read_watermelons_data
    rcases h with h | h <;> rw [h] <;> split <;> rfl
  · intro h
    unfold read_polaroids_data
    rcases h with h | h <;> rw [h] <;> split <;> rfl

/-- Witness for C5 at a concrete state with a missing watermelon file and
a malformed polaroid file. -/
theorem C5_witness :
    read_watermelons_data exBrokenFiles = Except.ok [] ∧
    read_polaroids_data exBrokenFiles = Except.ok [] :=
  ⟨(C5_missing_or_malformed_reads_empty exBrokenFiles).1 (Or.inl rfl),
   (C5_missing_or_malformed_reads_empty exBrokenFiles).2 (Or.inr rfl)⟩

/-- C3 (confirmed): for every stored record list and every id not present
in it, `PUT /watermelons/{id}` and `PUT /polaroids/{id}` return 404 and
leave the state unchanged, issuing no storage write. -/
theorem C3_update_unknown_id_404 (s : S3State) (wid pid : String)
    (wdata : List Watermelon) (pdata : List Polaroid)
    (wpayload : WatermelonUpdate) (ppayload : PolaroidUpdate)
    (hwr : read_watermelons_data s = Except.ok wdata)
    (hpr : read_polaroids_data s = Except.ok pdata)
    (hw : wid ∉ wdata.map Watermelon.id) (hp : pid ∉ pdata.map Polaroid.id) :
    update_watermelon s wid wpayload = ⟨ApiResult.err 404 "Watermelon not found", s, []⟩ ∧
    update_polaroid s pid ppayload = ⟨ApiResult.err 404 "Polaroid not found", s, []⟩ := by
  constructor
  · have hw' : ∀ q ∈ wdata, q.id ≠ wid :=
      fun q hq heq => hw (heq ▸ List.mem_map_of_mem Watermelon.id hq)
    unfold update_watermelon
    rw [hwr]
    simp [findById_eq_none Watermelon.id wid wdata hw']
  · have hp' : ∀ q ∈ pdata, q.id ≠ pid :=
      fun q hq heq => hp (heq ▸ List.mem_map_of_mem Polaroid.id hq)
    unfold update_polaroid
    rw [hpr]
    simp [findById_eq_none Polaroid.id pid pdata hp']

/-- Witness for C3: updating the unknown id nope against concrete stores. -/
theorem C3_witness :
    update_watermelon exState "nope" { rachy := {}, davey := {}, createdAt := 3 } =
      ⟨ApiResult.err 404 "Watermelon not found", exState, []⟩ ∧
    update_polaroid exStateP "nope"
        { createdAt := 3, description := "d", diary_entry := "e", stickers := [] } =
      ⟨ApiResult.err 404 "Polaroid not found", exStateP, []⟩ :=
  ⟨(C3_update_unknown_id_404 exState "nope" "x" [] []
      { rachy := {}, davey := {}, createdAt := 3 }
      { createdAt := 3, description := "d", diary_entry := "e", stickers := [] }
      rfl rfl (by decide) (by decide)).1,
   (C3_update_unknown_id_404 exStateP "x" "nope" [] [exPolaroid]
      { rachy := {}, davey := {}, createdAt := 3 }
      { createdAt := 3, description := "d", diary_entry := "e", stickers := [] }
      rfl rfl (by decide) (by decide)).2⟩

/-- C4 (confirmed): a create request whose data-URL MIME extension is
outside the allow-list (jpeg, jpg, png, gif for watermelons; the same plus
webp for polaroids) fails with a 400 client error, with the state
unchanged: no image bytes and no record are written. -/
theorem C4_disallowed_extension_rejected (s : S3State) (payload : ImageCreate)
    (pi : ParsedImage) (ai : AIBehavior) (stickerIds : Nat → String)
    (imageUuid recordId : String) (now : Nat)
    (hc : s.configured = true) (hb : s.bucket ≠ "")
    (hparse : parse_data_url payload.image_base64 = some pi) :
    (pi.file_ext ∉ WATERMELON_EXTS →
      create_watermelon s payload imageUuid recordId now =
        ⟨ApiResult.err 400 "Invalid image format. Supported formats: jpeg, jpg, png, gif.",
         s, []⟩) ∧
    (pi.file_ext ∉ POLAROID_EXTS →
      create_polaroid s payload ai stickerIds imageUuid recordId now =
        ⟨ApiResult.err 400 "Invalid image format. Supported formats: jpeg, jpg, png, gif, webp.",
         s, []⟩) := by
  constructor
  · intro hext
    unfold create_watermelon
    rw [hparse]
    simp [hc, hb, hext]
  · intro hext
    unfold create_polaroid
    rw [hparse]
    simp [hc, hb, hext]

/-- Witness for C4: a `.bmp` data URL is rejected by both create endpoints
with no storage write. -/
theorem C4_witness :
    create_watermelon exState exBmpPayload "u1" "rec1" 7 =
      ⟨ApiResult.err 400 "Invalid image format. Supported formats: jpeg, jpg, png, gif.",
       exState, []⟩ ∧
    create_polaroid exState exBmpPayload exAIRaises (fun _ => "sid") "u1" "rec1" 7 =
      ⟨ApiResult.err 400 "Invalid image format. Supported formats: jpeg, jpg, png, gif, webp.",
       exState, []⟩ :=
  ⟨(C4_disallowed_extension_rejected exState exBmpPayload
      { media_type := "image/bmp", file_ext := "bmp", encoded := "AAA" }
      exAIRaises (fun _ => "sid") "u1" "rec1" 7 rfl (by decide) rfl).1 (by decide),
   (C4_disallowed_extension_rejected exState exBmpPayload
      { media_type := "image/bmp", file_ext := "bmp", encoded := "AAA" }
      exAIRaises (fun _ => "sid") "u1" "rec1" 7 rfl (by decide) rfl).2 (by decide)⟩

/-- C8 (confirmed): `POST /watermelons` with a valid image payload returns
201 with a record whose `rachy` and `davey` rating sub-records are each
exactly texture 50, juiciness 50, sweetness 50, regardless of the image
content. -/
theorem C8_create_watermelon_default_ratings (s : S3State) (payload : ImageCreate)
    (pi : ParsedImage) (data : List Watermelon) (imageUuid recordId : String) (now : Nat)
    (hc : s.configured = true) (hb : s.bucket ≠ "")
    (hparse : parse_data_url payload.image_base64 = some pi)
    (hext : pi.file_ext ∈ WATERMELON_EXTS)
    (hread : read_watermelons_data s = Except.ok data) :
    (create_watermelon s payload imageUuid recordId now).result =
      ApiResult.ok 201
        { id := recordId,
          src := get_s3_url s ("images/watermelons/" ++ imageUuid ++ "." ++ pi.file_ext),
          createdAt := now,
          rachy := { texture := 50, juiciness := 50, sweetness := 50 },
          davey := { texture := 50, juiciness := 50, sweetness := 50 } } := by
  simp only [create_watermelon, hparse]
  rw [if_neg (by simp [hc, hb]), if_neg (by simpa using hext)]
  rw [read_watermelons_data_objects, hread]
  simp [get_s3_url_objects]

/-- Witness for C8 at a concrete PNG upload. -/
theorem C8_witness :
    (create_watermelon exState exPayload "u1" "rec1" 7).result =
      ApiResult.ok 201
        { id := "rec1",
          src := get_s3_url exState ("images/watermelons/" ++ "u1" ++ "." ++ "png"),
          createdAt := 7,
          rachy := { texture := 50, juiciness := 50, sweetness := 50 },
          davey := { texture := 50, juiciness := 50, sweetness := 50 } } :=
  C8_create_watermelon_default_ratings exState exPayload
    { media_type := "image/png", file_ext := "png", encoded := "AAA" }
    [] "u1" "rec1" 7 rfl (by decide) rfl (by decide) rfl

/-- C9 (corrected): when storage credentials are absent the service runs in
a degraded state, but not every storage-using operation fails with a 5xx
error: the create endpoints and sticker regeneration do fail with 500 at
the point of use, while `GET /watermelons` and `GET /polaroids` succeed
with 200 and an empty list, and the id-targeted PUT and DELETE endpoints
return 404. -/
theorem C9_degraded_storage (s : S3State) (payload : ImageCreate) (ai : AIBehavior)
    (failDelete : String → Bool) (stickerIds : Nat → String)
    (imageUuid recordId : String) (now : Nat) (wid pid : String)
    (wpayload : WatermelonUpdate) (ppayload : PolaroidUpdate)
    (hc : s.configured = false) :
    get_watermelons s = ⟨ApiResult.ok 200 [], s, []⟩ ∧
    get_polaroids s = ⟨ApiResult.ok 200 [], s, []⟩ ∧
    (create_watermelon s payload imageUuid recordId now).result =
      ApiResult.err 500 "S3 storage is not configured on the server." ∧
    (create_polaroid s payload ai stickerIds imageUuid recordId now).result =
      ApiResult.err 500 "S3 storage is not configured on the server." ∧
    (regenerate_stickers_for_polaroid s ai failDelete stickerIds pid).result =
      ApiResult.err 500 "S3 storage is not configured on the server." ∧
    update_watermelon s wid wpayload = ⟨ApiResult.err 404 "Watermelon not found", s, []⟩ ∧
    update_polaroid s pid ppayload = ⟨ApiResult.err 404 "Polaroid not found", s, []⟩ ∧
    delete_watermelon s failDelete wid = ⟨ApiResult.err 404 "Watermelon not found", s, []⟩ ∧
    delete_polaroid s failDelete pid = ⟨ApiResult.err 404 "Polaroid not found", s, []⟩ := by
  refine ⟨?_, ?_, ?_, ?_, ?_, ?_, ?_, ?_, ?_⟩ <;>
    simp [get_watermelons, get_polaroids, create_watermelon, create_polaroid,
          regenerate_stickers_for_polaroid, update_watermelon, update_polaroid,
          delete_watermelon, delete_polaroid, read_watermelons_data,
          read_polaroids_data, hc, findById]

/-- Counterexample to C9 as stated: with storage credentials absent,
`GET /watermelons` succeeds with 200 and the empty list instead of
signalling a 5xx error. -/
theorem C9_counterexample :
    get_watermelons exUnconfigured = ⟨ApiResult.ok 200 [], exUnconfigured, []⟩ := rfl

/-- Witness for C9 at a concrete unconfigured state. -/
theorem C9_witness :
    get_watermelons exUnconfigured = ⟨ApiResult.ok 200 [], exUnconfigured, []⟩ ∧
    get_polaroids exUnconfigured = ⟨ApiResult.ok 200 [], exUnconfigured, []⟩ ∧
    (create_watermelon exUnconfigured exPayload "u1" "rec1" 7).result =
      ApiResult.err 500 "S3 storage is not configured on the server." ∧
    (create_polaroid exUnconfigured exPayload exAIRaises (fun _ => "sid") "u1" "rec1" 7).result =
      ApiResult.err 500 "S3 storage is not configured on the server." ∧
    (regenerate_stickers_for_polaroid exUnconfigured exAIRaises (fun _ => false)
        (fun _ => "sid") "p1").result =
      ApiResult.err 500 "S3 storage is not configured on the server." ∧
    update_watermelon exUnconfigured "w1" { rachy := {}, davey := {}, createdAt := 3 } =
      ⟨ApiResult.err 404 "Watermelon not found", exUnconfigured, []⟩ ∧
    update_polaroid exUnconfigured "p1"
        { createdAt := 3, description := "d", diary_entry := "e", stickers := [] } =
      ⟨ApiResult.err 404 "Polaroid not found", exUnconfigured, []⟩ ∧
    delete_watermelon exUnconfigured (fun _ => false) "w1" =
      ⟨ApiResult.err 404 "Watermelon not found", exUnconfigured, []⟩ ∧
    delete_polaroid exUnconfigured (fun _ => false) "p1" =
      ⟨ApiResult.err 404 "Polaroid not found", exUnconfigured, []⟩ :=
  C9_degraded_storage exUnconfigured exPayload exAIRaises (fun _ => false) (fun _ => "sid")
    "u1" "rec1" 7 "w1" "p1" { rachy := {}, davey := {}, createdAt := 3 }
    { createdAt := 3, description := "d", diary_entry := "e", stickers := [] } rfl

/-- C1 (corrected): for a valid image payload with `skip_ai` false, an AI
failure never produces an error response, and the record is created (201)
with an empty sticker collection.  When the analysis step itself fails
(raises or returns no result) the description is also empty, as the claim
states; but when the analysis succeeds and only sticker generation fails,
the record keeps the analysis title as its description, contrary to the
claim's "empty title/description" (see the counterexample). -/
theorem C1_create_polaroid_ai_failure (s : S3State) (payload : ImageCreate)
    (ai : AIBehavior) (stickerIds : Nat → String) (pi : ParsedImage)
    (data : List Polaroid) (imageUuid recordId : String) (now : Nat)
    (hc : s.configured = true) (hb : s.bucket ≠ "")
    (hparse : parse_data_url payload.image_base64 = some pi)
    (hext : pi.file_ext ∈ POLAROID_EXTS)
    (hskip : payload.skip_ai = false)
    (hread : read_polaroids_data s = Except.ok data) :
    (ai.analysis = AnalysisOutcome.raises ∨ ai.analysis = AnalysisOutcome.noResult →
      (create_polaroid s payload ai stickerIds imageUuid recordId now).result =
        ApiResult.ok 201
          { id := recordId,
            src := get_s3_url s ("images/polaroids/" ++ imageUuid ++ "." ++ pi.file_ext),
            createdAt := now, description := "", stickers := [] }) ∧
    (∀ r, ai.analysis = AnalysisOutcome.ok r →
      (r.chibi_tasks.isEmpty = false →
        generate_stickers_from_analysis ai.gen r.chibi_tasks stickerIds = none ∨
        generate_stickers_from_analysis ai.gen r.chibi_tasks stickerIds = some []) →
      (create_polaroid s payload ai stickerIds imageUuid recordId now).result =
        ApiResult.ok 201
          { id := recordId,
            src := get_s3_url s ("images/polaroids/" ++ imageUuid ++ "." ++ pi.file_ext),
            createdAt := now, description := r.short_title, stickers := [] }) := by
  have hcreate : (create_polaroid s payload ai stickerIds imageUuid recordId now).result =
      ApiResult.ok 201
        { id := recordId,
          src := get_s3_url s ("images/polaroids/" ++ imageUuid ++ "." ++ pi.file_ext),
          createdAt := now,
          description := (polaroid_ai_enrichment payload ai stickerIds).1,
          stickers := (polaroid_ai_enrichment payload ai stickerIds).2 } := by
    simp only [create_polaroid, hparse]
    rw [if_neg (by simp [hc, hb]), if_neg (by simpa using hext)]
    rw [read_polaroids_data_objects, hread]
    simp [get_s3_url_objects]
  constructor
  · intro h
    rw [hcreate]
    rcases h with ha | ha <;> simp [polaroid_ai_enrichment, hskip, ha]
  · intro r ha hgen
    rw [hcreate]
    by_cases he : r.chibi_tasks.isEmpty
    · simp [polaroid_ai_enrichment, hskip, ha, he]
    · rcases hgen (by simpa using he) with hg | hg <;>
        simp [polaroid_ai_enrichment, hskip, ha, he, hg]

/-- Counterexample to C1 as stated: `skip_ai` is false, the analysis
succeeds with the title Trip, and every sticker-generation call fails, so
the sticker-generation stage of the collaborator fails entirely; the
record is still created with an empty sticker collection, but its
description is the non-empty Trip rather than the empty string the claim
requires. -/
theorem C1_counterexample :
    (create_polaroid exState exPayload exAIGenFails (fun _ => "sid") "u1" "rec1" 7).result =
      ApiResult.ok 201
        { id := "rec1", src := "https://b.s3.r.amazonaws.com/images/polaroids/u1.png",
          createdAt := 7, description := "Trip", stickers := [] } ∧
    ("Trip" : String) ≠ "" := by
  constructor
  · rfl
  · decide

/-- Witness for C1 at a concrete raising analysis call. -/
theorem C1_witness :
    (create_polaroid exState exPayload exAIRaises (fun _ => "sid") "u1" "rec1" 7).result =
      ApiResult.ok 201
        { id := "rec1",
          src := get_s3_url exState ("images/polaroids/" ++ "u1" ++ "." ++ "png"),
          createdAt := 7, description := "", stickers := [] } :=
  (C1_create_polaroid_ai_failure exState exPayload exAIRaises (fun _ => "sid")
      { media_type := "image/png", file_ext := "png", encoded := "AAA" }
      [] "u1" "rec1" 7 rfl (by decide) rfl (by decide) rfl rfl).1 (Or.inl rfl)

/-- C2 (corrected): an AI-collaborator failure is swallowed by
`POST /polaroids`, which returns 201 with the (possibly unenriched) record
for every collaborator outcome; but `POST /polaroids/{id}/stickers`
surfaces an analysis failure as a 500 error response, and only a
sticker-generation failure after a successful analysis is swallowed there,
the caller then receiving the record with an empty sticker collection. -/
theorem C2_ai_failure_surfacing (s : S3State) (payload : ImageCreate)
    (ai : AIBehavior) (failDelete : String → Bool) (stickerIds : Nat → String)
    (pi : ParsedImage) (pre post : List Polaroid) (p : Polaroid)
    (imageUuid recordId : String) (now : Nat)
    (hc : s.configured = true) (hb : s.bucket ≠ "")
    (hparse : parse_data_url payload.image_base64 = some pi)
    (hext : pi.file_ext ∈ POLAROID_EXTS)
    (hread : read_polaroids_data s = Except.ok (pre ++ p :: post))
    (hpre : ∀ q ∈ pre, q.id ≠ p.id)
    (hsrc : p.src ≠ "")
    (hkey : get_s3_key_from_url p.src ∈ s.objects) :
    ((create_polaroid s payload ai stickerIds imageUuid recordId now).result =
      ApiResult.ok 201
        { id := recordId,
          src := get_s3_url s ("images/polaroids/" ++ imageUuid ++ "." ++ pi.file_ext),
          createdAt := now,
          description := (polaroid_ai_enrichment payload ai stickerIds).1,
          stickers := (polaroid_ai_enrichment payload ai stickerIds).2 }) ∧
    (ai.analysis = AnalysisOutcome.raises ∨ ai.analysis = AnalysisOutcome.noResult →
      regenerate_stickers_for_polaroid s ai failDelete stickerIds p.id =
        ⟨ApiResult.err 500 "An error occurred during polaroid analysis", s, []⟩) ∧
    (∀ r, ai.analysis = AnalysisOutcome.ok r →
      (r.chibi_tasks.isEmpty = false →
        generate_stickers_from_analysis ai.gen r.chibi_tasks stickerIds = some []) →
      (regenerate_stickers_for_polaroid s ai failDelete stickerIds p.id).result =
        ApiResult.ok 200 { p with description := r.short_title, stickers := [] }) := by
  have hfind := findById_first Polaroid.id p pre post hpre
  have hnc : ¬(s.configured = false ∨ s.bucket = "") := by simp [hc, hb]
  refine ⟨?_, ?_, ?_⟩
  · simp only [create_polaroid, hparse]
    rw [if_neg hnc, if_neg (by simpa using hext)]
    rw [read_polaroids_data_objects, hread]
    simp [get_s3_url_objects]
  · intro h
    rcases h with ha | ha <;>
      simp [regenerate_stickers_for_polaroid, if_neg hnc, hread, hfind, hsrc, hkey, ha]
  · intro r ha hgen
    by_cases he : r.chibi_tasks.isEmpty
    · simp [regenerate_stickers_for_polaroid, if_neg hnc, hread, hfind, hsrc, hkey, ha, he]
    · have hg := hgen (by simpa using he)
      simp [regenerate_stickers_for_polaroid, if_neg hnc, hread, hfind, hsrc, hkey, ha, he, hg]

/-- Counterexample to C2 as stated: for the stored polaroid p1, a raising
analysis call makes `POST /polaroids/{id}/stickers` answer with a 500
error response instead of swallowing the AI failure. -/
theorem C2_counterexample :
    (regenerate_stickers_for_polaroid exStateP exAIRaises (fun _ => false)
        (fun _ => "sid") "p1").result =
      ApiResult.err 500 "An error occurred during polaroid analysis" := rfl

/-- Witness for C2 at a concrete raising analysis call against the stored
polaroid p1. -/
theorem C2_witness :
    (create_polaroid exStateP exPayload exAIRaises (fun _ => "sid") "u1" "rec1" 7).result =
      ApiResult.ok 201
        { id := "rec1",
          src := get_s3_url exStateP ("images/polaroids/" ++ "u1" ++ "." ++ "png"),
          createdAt := 7,
          description := (polaroid_ai_enrichment exPayload exAIRaises (fun _ => "sid")).1,
          stickers := (polaroid_ai_enrichment exPayload exAIRaises (fun _ => "sid")).2 } ∧
    regenerate_stickers_for_polaroid exStateP exAIRaises (fun _ => false) (fun _ => "sid")
        "p1" =
      ⟨ApiResult.err 500 "An error occurred during polaroid analysis", exStateP, []⟩ := by
  have h := C2_ai_failure_surfacing exStateP exPayload exAIRaises (fun _ => false)
    (fun _ => "sid") { media_type := "image/png", file_ext := "png", encoded := "AAA" }
    [] [] exPolaroid "u1" "rec1" 7 rfl (by decide) rfl (by decide) rfl
    (by intro q hq; cases hq) (by decide) (by decide)
  exact ⟨h.1, h.2.1 (Or.inl rfl)⟩

/-- Sticker records used by the cascade-delete witness. -/
def exSticker1 : Sticker := { id := "s1", src := "https://b.s3.r.amazonaws.com/g1.png" }

def exSticker2 : Sticker := { id := "s2", src := "https://b.s3.r.amazonaws.com/g2.png" }

def exSticker3 : Sticker := { id := "s3", src := "https://b.s3.r.amazonaws.com/g3.png" }

/-- Stored polaroid with three stickers. -/
def exPolaroid3 : Polaroid :=
  { id := "p3", src := "https://b.s3.r.amazonaws.com/images/polaroids/v.png",
    createdAt := 0, stickers := [exSticker1, exSticker2, exSticker3] }

/-- Configured bucket holding `exPolaroid3`, its image and its three
sticker images. -/
def exStateP3 : S3State :=
  { configured := true, bucket := "b", region := "r",
    watermelonsFile := RawFile.good [], polaroidsFile := RawFile.good [exPolaroid3],
    objects := ["images/polaroids/v.png", "g1.png", "g2.png", "g3.png"] }

/-- Delete-failure oracle under which removing g2.png raises. -/
def exFailG2 : String → Bool := fun k => k = "g2.png"

/-- C6 (confirmed): deleting a stored polaroid with n stickers issues a
storage delete for the main image and for each of the n sticker images,
removes the record from the backing list so it is absent from a subsequent
`GET /polaroids`, and — since the statement holds for every delete-failure
oracle `failDelete` — a failure to delete any individual image file never
aborts the removal of the parent record. -/
theorem C6_delete_polaroid_cascade (s : S3State) (failDelete : String → Bool)
    (pre post : List Polaroid) (p : Polaroid)
    (hread : read_polaroids_data s = Except.ok (pre ++ p :: post))
    (hpre : ∀ q ∈ pre, q.id ≠ p.id) (hpost : ∀ q ∈ post, q.id ≠ p.id)
    (hsrc : p.src ≠ "") (hst : ∀ st ∈ p.stickers, st.src ≠ "") :
    (delete_polaroid s failDelete p.id).result = ApiResult.ok 204 () ∧
    (delete_polaroid s failDelete p.id).trace =
      StorageOp.deleteObject (get_s3_key_from_url p.src)
        :: p.stickers.map (fun st => StorageOp.deleteObject (get_s3_key_from_url st.src))
        ++ [StorageOp.putData POLAROIDS_DATA_FILE] ∧
    (delete_polaroid s failDelete p.id).state.polaroidsFile = RawFile.good (pre ++ post) ∧
    (get_polaroids (delete_polaroid s failDelete p.id).state).result =
      ApiResult.ok 200 (pre ++ post) ∧
    p.id ∉ (pre ++ post).map Polaroid.id := by
  obtain ⟨hc, hb, -⟩ := read_polaroids_data_ok_nonempty s _ hread (by simp)
  have hnc : ¬(s.configured = false ∨ s.bucket = "") := by simp [hc, hb]
  have hfind := findById_first Polaroid.id p pre post hpre
  have htr := delete_sticker_images_trace failDelete p.stickers hst
  have hfile3 : (delete_polaroid s failDelete p.id).state.polaroidsFile =
      RawFile.good (pre ++ post) := by
    simp [delete_polaroid, hread, hfind, hnc, hsrc, write_polaroids_data,
          delete_sticker_images_configured, delete_sticker_images_bucket,
          s3_delete_object_configured, s3_delete_object_bucket, eraseIdx_at_append]
  have hcfg3 : (delete_polaroid s failDelete p.id).state.configured = true := by
    simp [delete_polaroid, hread, hfind, hnc, hsrc, write_polaroids_data,
          delete_sticker_images_configured, delete_sticker_images_bucket,
          s3_delete_object_configured, s3_delete_object_bucket, hc, hb]
  have hbk3 : (delete_polaroid s failDelete p.id).state.bucket ≠ "" := by
    simp [delete_polaroid, hread, hfind, hnc, hsrc, write_polaroids_data,
          delete_sticker_images_configured, delete_sticker_images_bucket,
          s3_delete_object_configured, s3_delete_object_bucket, hc, hb]
  refine ⟨?_, ?_, hfile3, ?_, ?_⟩
  · simp [delete_polaroid, hread, hfind, hnc, hsrc]
  · simp [delete_polaroid, hread, hfind, hnc, hsrc, htr, write_polaroids_data,
          delete_sticker_images_configured, delete_sticker_images_bucket,
          s3_delete_object_configured, s3_delete_object_bucket]
  · rw [get_polaroids_good _ _ hcfg3 hbk3 hfile3]
  · intro hmem
    rcases List.mem_map.mp hmem with ⟨q, hq, hqe⟩
    rcases List.mem_append.mp hq with h1 | h1
    · exact hpre q h1 hqe
    · exact hpost q h1 hqe

/-- Witness for C6: deleting p3 (three stickers) while the delete of
g2.png fails. -/
theorem C6_witness :
    (delete_polaroid exStateP3 exFailG2 exPolaroid3.id).result = ApiResult.ok 204 () ∧
    (delete_polaroid exStateP3 exFailG2 exPolaroid3.id).trace =
      StorageOp.deleteObject (get_s3_key_from_url exPolaroid3.src)
        :: exPolaroid3.stickers.map
            (fun st => StorageOp.deleteObject (get_s3_key_from_url st.src))
        ++ [StorageOp.putData POLAROIDS_DATA_FILE] ∧
    (delete_polaroid exStateP3 exFailG2 exPolaroid3.id).state.polaroidsFile =
      RawFile.good ([] ++ []) ∧
    (get_polaroids (delete_polaroid exStateP3 exFailG2 exPolaroid3.id).state).result =
      ApiResult.ok 200 ([] ++ []) ∧
    exPolaroid3.id ∉ (([] ++ [] : List Polaroid)).map Polaroid.id :=
  C6_delete_polaroid_cascade exStateP3 exFailG2 [] [] exPolaroid3 rfl
    (by intro q hq; cases hq) (by intro q hq; cases hq) (by decide) (by decide)

/-- C7 (confirmed): the polaroid `src` field is immutable after creation:
both `PUT /polaroids/{id}` and `POST /polaroids/{id}/stickers` return a
record carrying the original `src` whenever they return a record at all,
and under every outcome the stored list still carries the original `src`
at the targeted position. -/
theorem C7_src_immutable (s : S3State) (pre post : List Polaroid) (p : Polaroid)
    (payload : PolaroidUpdate) (ai : AIBehavior) (failDelete : String → Bool)
    (stickerIds : Nat → String)
    (hread : read_polaroids_data s = Except.ok (pre ++ p :: post))
    (hpre : ∀ q ∈ pre, q.id ≠ p.id) :
    (∀ q, (update_polaroid s p.id payload).result = ApiResult.ok 200 q → q.src = p.src) ∧
    (∃ r, (update_polaroid s p.id payload).state.polaroidsFile =
        RawFile.good (pre ++ r :: post) ∧ r.src = p.src) ∧
    (∀ q, (regenerate_stickers_for_polaroid s ai failDelete stickerIds p.id).result =
        ApiResult.ok 200 q → q.src = p.src) ∧
    (∃ r, (regenerate_stickers_for_polaroid s ai failDelete stickerIds
        p.id).state.polaroidsFile = RawFile.good (pre ++ r :: post) ∧ r.src = p.src) := by
  obtain ⟨hc, hb, hfile⟩ := read_polaroids_data_ok_nonempty s _ hread (by simp)
  have hnc : ¬(s.configured = false ∨ s.bucket = "") := by simp [hc, hb]
  have hfind := findById_first Polaroid.id p pre post hpre
  have hpnew : (update_polaroid s p.id payload).result =
      ApiResult.ok 200
        { id := p.id, src := p.src, createdAt := payload.createdAt,
          description := payload.description, diary_entry := payload.diary_entry,
          stickers := payload.stickers } := by
    simp [update_polaroid, hread, hfind, write_polaroids_data, hnc]
  refine ⟨?_, ?_, ?_, ?_⟩
  · intro q hq
    rw [hpnew] at hq
    injection hq with h1 h2
    rw [← h2]
  · refine ⟨{ id := p.id, src := p.src, createdAt := payload.createdAt,
              description := payload.description, diary_entry := payload.diary_entry,
              stickers := payload.stickers }, ?_, rfl⟩
    simp [update_polaroid, hread, hfind, write_polaroids_data, hnc, set_at_append]
  · intro q hq
    by_cases hs : p.src = ""
    · simp [regenerate_stickers_for_polaroid, hnc, hread, hfind, hs] at hq
    · by_cases hk : get_s3_key_from_url p.src ∈ s.objects
      · rcases hAn : ai.analysis with _ | _ | r
        · simp [regenerate_stickers_for_polaroid, hnc, hread, hfind, hs, hk, hAn] at hq
        · simp [regenerate_stickers_for_polaroid, hnc, hread, hfind, hs, hk, hAn] at hq
        · by_cases ht : r.chibi_tasks = []
          · have hres : (regenerate_stickers_for_polaroid s ai failDelete stickerIds
                p.id).result =
                ApiResult.ok 200
                  { p with description := r.short_title, stickers := ([] : List Sticker) } := by
              simp [regenerate_stickers_for_polaroid, hnc, hread, hfind, hs, hk, hAn, ht]
            rw [hres] at hq
            injection hq with h1 h2
            rw [← h2]
          · cases hg : generate_stickers_from_analysis ai.gen r.chibi_tasks stickerIds with
            | none =>
              simp [regenerate_stickers_for_polaroid, hnc, hread, hfind, hs, hk, hAn, ht,
                    hg] at hq
            | some sts =>
              have hres : (regenerate_stickers_for_polaroid s ai failDelete stickerIds
                  p.id).result =
                  ApiResult.ok 200 { p with description := r.short_title, stickers := sts } := by
                simp [regenerate_stickers_for_polaroid, hnc, hread, hfind, hs, hk, hAn, ht, hg]
              rw [hres] at hq
              injection hq with h1 h2
              rw [← h2]
      · simp [regenerate_stickers_for_polaroid, hnc, hread, hfind, hs, hk] at hq
  · by_cases hs : p.src = ""
    · exact ⟨p, by simp [regenerate_stickers_for_polaroid, hnc, hread, hfind, hs, hfile], rfl⟩
    · by_cases hk : get_s3_key_from_url p.src ∈ s.objects
      · rcases hAn : ai.analysis with _ | _ | r
        · exact ⟨p, by
            simp [regenerate_stickers_for_polaroid, hnc, hread, hfind, hs, hk, hAn, hfile],
            rfl⟩
        · exact ⟨p, by
            simp [regenerate_stickers_for_polaroid, hnc, hread, hfind, hs, hk, hAn, hfile],
            rfl⟩
        · by_cases ht : r.chibi_tasks = []
          · exact ⟨{ p with description := r.short_title, stickers := ([] : List Sticker) }, by
              simp [regenerate_stickers_for_polaroid, hnc, hread, hfind, hs, hk, hAn, ht,
                    write_polaroids_data, delete_sticker_images_configured,
                    delete_sticker_images_bucket, s3_delete_object_configured,
                    s3_delete_object_bucket, set_at_append],
              rfl⟩
          · cases hg : generate_stickers_from_analysis ai.gen r.chibi_tasks stickerIds with
            | none =>
              exact ⟨p, by
                simp [regenerate_stickers_for_polaroid, hnc, hread, hfind, hs, hk, hAn, ht,
                      hg, delete_sticker_images_polaroidsFile,
                      s3_delete_object_polaroidsFile, hfile],
                rfl⟩
            | some sts =>
              exact ⟨{ p with description := r.short_title, stickers := sts }, by
                simp [regenerate_stickers_for_polaroid, hnc, hread, hfind, hs, hk, hAn, ht,
                      hg, write_polaroids_data, delete_sticker_images_configured,
                      delete_sticker_images_bucket, s3_delete_object_configured,
                      s3_delete_object_bucket, set_at_append],
                rfl⟩
      · exact ⟨p, by
          simp [regenerate_stickers_for_polaroid, hnc, hread, hfind, hs, hk, hfile], rfl⟩

/-- Polaroid update payload used by the witnesses. -/
def exPUpdate : PolaroidUpdate :=
  { createdAt := 9, description := "new words", diary_entry := "dear diary",
    stickers := [exSticker1] }

/-- Witness for C7 against the stored polaroid p1 with a raising analysis
oracle. -/
theorem C7_witness :
    (∀ q, (update_polaroid exStateP exPolaroid.id exPUpdate).result =
        ApiResult.ok 200 q → q.src = exPolaroid.src) ∧
    (∃ r, (update_polaroid exStateP exPolaroid.id exPUpdate).state.polaroidsFile =
        RawFile.good ([] ++ r :: []) ∧ r.src = exPolaroid.src) ∧
    (∀ q, (regenerate_stickers_for_polaroid exStateP exAIRaises (fun _ => false)
        (fun _ => "sid") exPolaroid.id).result = ApiResult.ok 200 q →
        q.src = exPolaroid.src) ∧
    (∃ r, (regenerate_stickers_for_polaroid exStateP exAIRaises (fun _ => false)
        (fun _ => "sid") exPolaroid.id).state.polaroidsFile =
        RawFile.good ([] ++ r :: []) ∧ r.src = exPolaroid.src) :=
  C7_src_immutable exStateP [] [] exPolaroid exPUpdate exAIRaises (fun _ => false)
    (fun _ => "sid") rfl (by intro q hq; cases hq)

/-- Stored watermelon record for the frame witness. -/
def exWatermelon : Watermelon :=
  { id := "w1", src := "https://b.s3.r.amazonaws.com/images/watermelons/x.png",
    createdAt := 0 }

/-- Configured bucket holding one watermelon and one polaroid. -/
def exStateWP : S3State :=
  { configured := true, bucket := "b", region := "r",
    watermelonsFile := RawFile.good [exWatermelon],
    polaroidsFile := RawFile.good [exPolaroid],
    objects := ["images/watermelons/x.png", "images/polaroids/u.png"] }

/-- Watermelon update payload used by the witnesses. -/
def exWUpdate : WatermelonUpdate :=
  { rachy := { texture := 10, juiciness := 20, sweetness := 30 },
    davey := { texture := 40, juiciness := 50, sweetness := 60 }, createdAt := 9 }

/-- C10 (confirmed): every id-targeted mutation applied to a stored list
containing that id writes every other record back unchanged and in its
original relative order; on PUT the targeted record is replaced in place,
on DELETE exactly the targeted record is removed. -/
theorem C10_frame_effects (s : S3State) (failDelete : String → Bool)
    (wpre wpost : List Watermelon) (w : Watermelon) (wpayload : WatermelonUpdate)
    (ppre ppost : List Polaroid) (p : Polaroid) (ppayload : PolaroidUpdate)
    (hwread : read_watermelons_data s = Except.ok (wpre ++ w :: wpost))
    (hwpre : ∀ q ∈ wpre, q.id ≠ w.id)
    (hpread : read_polaroids_data s = Except.ok (ppre ++ p :: ppost))
    (hppre : ∀ q ∈ ppre, q.id ≠ p.id) :
    (update_watermelon s w.id wpayload).state.watermelonsFile =
      RawFile.good (wpre ++
        { w with rachy := wpayload.rachy, davey := wpayload.davey,
                 createdAt := wpayload.createdAt } :: wpost) ∧
    (delete_watermelon s failDelete w.id).state.watermelonsFile =
      RawFile.good (wpre ++ wpost) ∧
    (update_polaroid s p.id ppayload).state.polaroidsFile =
      RawFile.good (ppre ++
        { id := p.id, src := p.src, createdAt := ppayload.createdAt,
          description := ppayload.description, diary_entry := ppayload.diary_entry,
          stickers := ppayload.stickers } :: ppost) ∧
    (delete_polaroid s failDelete p.id).state.polaroidsFile =
      RawFile.good (ppre ++ ppost) := by
  obtain ⟨hc, hb, -⟩ := read_watermelons_data_ok_nonempty s _ hwread (by simp)
  have hnc : ¬(s.configured = false ∨ s.bucket = "") := by simp [hc, hb]
  have hwfind := findById_first Watermelon.id w wpre wpost hwpre
  have hpfind := findById_first Polaroid.id p ppre ppost hppre
  refine ⟨?_, ?_, ?_, ?_⟩
  · simp [update_watermelon, hwread, hwfind, write_watermelons_data, hnc, set_at_append]
  · by_cases hwsrc : w.src = ""
    · simp [delete_watermelon, hwread, hwfind, write_watermelons_data, hnc, hwsrc,
            eraseIdx_at_append, hc, hb]
    · simp [delete_watermelon, hwread, hwfind, write_watermelons_data, hnc, hwsrc,
            s3_delete_object_configured, s3_delete_object_bucket,
            s3_delete_object_watermelonsFile, eraseIdx_at_append, hc, hb]
  · simp [update_polaroid, hpread, hpfind, write_polaroids_data, hnc, set_at_append]
  · by_cases hpsrc : p.src = ""
    · simp [delete_polaroid, hpread, hpfind, write_polaroids_data, hnc, hpsrc,
            delete_sticker_images_configured, delete_sticker_images_bucket,
            delete_sticker_images_polaroidsFile, eraseIdx_at_append, hc, hb]
    · simp [delete_polaroid, hpread, hpfind, write_polaroids_data, hnc, hpsrc,
            s3_delete_object_configured, s3_delete_object_bucket,
            s3_delete_object_polaroidsFile, delete_sticker_images_configured,
            delete_sticker_images_bucket, delete_sticker_images_polaroidsFile,
            eraseIdx_at_append, hc, hb]

/-- Witness for C10 on singleton stores. -/
theorem C10_witness :
    (update_watermelon exStateWP exWatermelon.id exWUpdate).state.watermelonsFile =
      RawFile.good ([] ++
        { exWatermelon with rachy := exWUpdate.rachy, davey := exWUpdate.davey,
                            createdAt := exWUpdate.createdAt } :: []) ∧
    (delete_watermelon exStateWP (fun _ => false) exWatermelon.id).state.watermelonsFile =
      RawFile.good ([] ++ []) ∧
    (update_polaroid exStateWP exPolaroid.id exPUpdate).state.polaroidsFile =
      RawFile.good ([] ++
        { id := exPolaroid.id, src := exPolaroid.src, createdAt := exPUpdate.createdAt,
          description := exPUpdate.description, diary_entry := exPUpdate.diary_entry,
          stickers := exPUpdate.stickers } :: []) ∧
    (delete_polaroid exStateWP (fun _ => false) exPolaroid.id).state.polaroidsFile =
      RawFile.good ([] ++ []) :=
  C10_frame_effects exStateWP (fun _ => false) [] [] exWatermelon exWUpdate
    [] [] exPolaroid exPUpdate rfl (by intro q hq; cases hq) rfl
    (by intro q hq; cases hq)

end TheSmallApp
